import Mathlib

/-
Shallow embedding of the TriviaAPI Flask backend
(src/backend/flaskr/__init__.py) and proofs about its request handlers.

Modelling conventions:
- A question store and a category store stand for the two database tables.
- Each route handler becomes a pure function from its request inputs and
  the store to `Except Nat resp` where `Except.error n` is an `abort(n)`
  (HTTP error status n) and `Except.ok` a 200 JSON response.
- The Flask query parameter `request.args.get("page", 1, type=int)` is
  modelled as `Option Int`: `none` when the parameter is absent or not
  convertible to an integer (Flask then returns the default 1).
- Python list slicing (including its negative-index semantics) is modelled
  by `pySlice`.
- `random.choice` is modelled by an arbitrary index `pick : Nat`; taking
  `pick % length` ranges over every element the library call could return.
- The bodies of `models.py` (setup_db, the Question/Category models with
  insert/format) are not under src/; those operations are modelled from the
  spec where needed, as noted on each definition.
-/

set_option autoImplicit false

namespace TriviaAPI

/-- A row of the questions table. `question`, `answer`, `difficulty` and
`category` are nullable columns (the handler performs no validation before
inserting whatever the JSON body carried, including nothing at all). -/
structure Question where
  id : Nat
  question : Option String
  answer : Option String
  difficulty : Option Int
  category : Option Nat
deriving Repr, DecidableEq

/-- A row of the categories table. -/
structure Category where
  id : Nat
  type : String
deriving Repr, DecidableEq

/-- The persistent store backing the API: the two tables. -/
structure Store where
  questions : List Question
  categories : List Category
deriving Repr, DecidableEq

/-- `QUESTIONS_PER_PAGE = 10` from the source. -/
def QUESTIONS_PER_PAGE : Int := 10

/-- Resolution of one Python slice index against a list of length `n`:
a negative index counts from the end (clamped below at 0); `List.take` and
`List.drop` already clamp above at `n`. -/
def pyIndex (n : Nat) (i : Int) : Nat :=
  if i < 0 then (i + n).toNat else i.toNat

/-- Python slice `l[start:stop]`: negative indices count from the end,
out-of-range indices are clamped. -/
def pySlice {α : Type} (l : List α) (start stop : Int) : List α :=
  (l.take (pyIndex l.length stop)).drop (pyIndex l.length start)

/-- `paginate_questions` from the source: read the `page` query parameter
(default 1 when absent or non-numeric), slice
`[(page-1)*10 : (page-1)*10 + 10]` out of the ordered question list.
`Question.format()` (models.py, not under src/) serializes exactly the
fields of `Question`, so the formatted record is identified with the row. -/
def paginate_questions (page : Option Int) (question_list : List Question) :
    List Question :=
  let page_number : Int := page.getD 1
  let start_index : Int := (page_number - 1) * QUESTIONS_PER_PAGE
  let end_index : Int := start_index + QUESTIONS_PER_PAGE
  pySlice question_list start_index end_index

/-- The `{id: type}` dictionary the handlers build from the category rows. -/
def categoriesDict (cats : List Category) : List (Nat × String) :=
  cats.map (fun c => (c.id, c.type))

/-- 200 body of `GET /questions`. -/
structure QuestionsPage where
  total_questions : Nat
  categories : List (Nat × String)
  questions : List Question
deriving Repr, DecidableEq

/-- `get_questions` (GET /questions): fetch all questions, slice the
requested page, `abort(404)` when the sliced page is empty, otherwise
return the page together with `total_questions = len(all_questions)`. -/
def get_questions (page : Option Int) (s : Store) : Except Nat QuestionsPage :=
  let all_questions := s.questions
  let paginated_questions := paginate_questions page all_questions
  if paginated_questions.length = 0 then
    Except.error 404
  else
    Except.ok { total_questions := all_questions.length,
                categories := categoriesDict s.categories,
                questions := paginated_questions }

/-- `leadsWith n h` : the char list `n` is an initial segment of `h`. -/
def leadsWith : List Char → List Char → Bool
  | [], _ => true
  | _ :: _, [] => false
  | a :: as, b :: bs => a == b && leadsWith as bs

/-- `hasSublist n h` : `n` occurs contiguously inside `h`. -/
def hasSublist (needle : List Char) : List Char → Bool
  | [] => leadsWith needle []
  | c :: t => leadsWith needle (c :: t) || hasSublist needle t

/-- Character-wise lower-casing of a string's characters. -/
def lowerChars : List Char → List Char
  | [] => []
  | c :: t => c.toLower :: lowerChars t

/-- SQL `column ILIKE '%term%'` as issued on line 159 of the source:
case-insensitive substring match on the question text; a NULL column
never matches. -/
def ilikeContains (term : String) : Option String → Bool
  | none => false
  | some t => hasSublist (lowerChars term.data) (lowerChars t.data)

/-- Python truthiness of `request_body.get('searchTerm', None)`:
`None` and the empty string are falsy. -/
def truthyStr : Option String → Bool
  | none => false
  | some s => !s.data.isEmpty

/-- JSON body of `POST /questions`; every field is read with
`request_body.get(key, None)`. -/
structure CreateBody where
  question : Option String
  answer : Option String
  difficulty : Option Int
  category : Option Nat
  searchTerm : Option String
deriving Repr, DecidableEq

/-- Modelled from the spec: `models.py` is not under src/, and with it
`Question.insert`. Per the spec's data access layer,
`insert_question(question, answer, difficulty, category)` stores a new
Question with a server-assigned fresh id. -/
def insertQuestion (s : Store) (q a : Option String) (d : Option Int)
    (c : Option Nat) : Store × Question :=
  let newId := (s.questions.map Question.id).foldr max 0 + 1
  let nq : Question :=
    { id := newId, question := q, answer := a, difficulty := d, category := c }
  ({ s with questions := s.questions ++ [nq] }, nq)

/-- 200 bodies of `POST /questions`: the search branch and the create
branch. -/
inductive CreateResp where
  | searchOk (questions : List Question) (total_questions : Nat)
  | createOk (question_created : Option String) (created : Nat)
      (questions : List Question) (total_questions : Nat)
deriving Repr, DecidableEq

/-- `create_a_question` (POST /questions). With a truthy `searchTerm`:
filter by case-insensitive substring, paginate, and return
`total_questions = len(paginated_questions)` (the page length, line 165).
Otherwise: insert the new question unconditionally (no emptiness check
anywhere in the handler), re-fetch all questions ordered by id, paginate,
and return the new id plus `total_questions = len(all_questions)`.
Returns the response together with the store after the request. -/
def create_a_question (page : Option Int) (body : CreateBody) (s : Store) :
    Except Nat CreateResp × Store :=
  if truthyStr body.searchTerm then
    let st := body.searchTerm.getD ""
    let matched_questions := s.questions.filter (fun q => ilikeContains st q.question)
    let paginated_questions := paginate_questions page matched_questions
    (Except.ok (CreateResp.searchOk paginated_questions paginated_questions.length), s)
  else
    let ins := insertQuestion s body.question body.answer body.difficulty body.category
    let all_questions :=
      List.insertionSort (fun a b => a.id ≤ b.id) ins.fst.questions
    let paginated_questions := paginate_questions page all_questions
    (Except.ok (CreateResp.createOk ins.snd.question ins.snd.id
        paginated_questions all_questions.length), ins.fst)

/-- Projection used to read the `total_questions` field out of a search
response. -/
def searchTotal : Except Nat CreateResp → Option Nat
  | Except.ok (CreateResp.searchOk _ t) => some t
  | _ => none

/-- 200 body of `GET /categories/<id>/questions`. -/
structure CategoryQuestionsResp where
  total_questions : Nat
  current_category : String
  questions : List Question
deriving Repr, DecidableEq

/-- `get_questions_by_category` (GET /categories/<id>/questions):
`one_or_none` category lookup, `abort(404)` when absent; otherwise filter
questions by that category id, paginate, and return
`total_questions = len(Question.query.all())` (the whole table, line 204). -/
def get_questions_by_category (page : Option Int) (category_id : Nat)
    (s : Store) : Except Nat CategoryQuestionsResp :=
  match s.categories.find? (fun c => c.id == category_id) with
  | none => Except.error 404
  | some category =>
    let questions_in_category :=
      s.questions.filter (fun q => q.category == some category.id)
    let paginated_questions := paginate_questions page questions_in_category
    Except.ok { total_questions := s.questions.length,
                current_category := category.type,
                questions := paginated_questions }

/-- JSON body of `POST /play`. `quiz_category` holds the `id` field of the
`quiz_category` object when the object is present. -/
structure PlayBody where
  previous_questions : Option (List Nat)
  quiz_category : Option Nat
deriving Repr, DecidableEq

/-- 200 body of `POST /play`: the next question or the null sentinel. -/
structure PlayResp where
  question : Option Question
deriving Repr, DecidableEq

/-- The candidate pool built on lines 234-237: questions of the category
when `category_id != 0` (else all questions), excluding ids in
`previous_questions`. -/
def available_questions (category_id : Nat) (previous_questions : List Nat)
    (s : Store) : List Question :=
  if category_id ≠ 0 then
    s.questions.filter
      (fun q => q.category == some category_id && !(previous_questions.contains q.id))
  else
    s.questions.filter (fun q => !(previous_questions.contains q.id))

/-- `play_game` (POST /play). When `quiz_category` is absent,
`quiz_category['id']` raises `TypeError` (subscripting None); when
`previous_questions` is absent, `Question.id.notin_(None)` raises at query
construction; both are swallowed by the handler's blanket `except` which
does `abort(422)`. On the normal path the pool is built and
`random.choice` (modelled by the arbitrary index `pick`) picks a question
when the pool is non-empty, else the response carries the null sentinel. -/
def play_game (pick : Nat) (body : PlayBody) (s : Store) : Except Nat PlayResp :=
  match body.quiz_category with
  | none => Except.error 422
  | some category_id =>
    match body.previous_questions with
    | none => Except.error 422
    | some previous_questions =>
      let avail := available_questions category_id previous_questions s
      let next_question : Option Question :=
        if h : 0 < avail.length then
          some (avail.get ⟨pick % avail.length, Nat.mod_lt _ h⟩)
        else none
      Except.ok { question := next_question }

/-- JSON envelope returned by the registered error handlers. -/
structure ErrorBody where
  success : Bool
  error : Nat
  message : String
deriving Repr, DecidableEq

/-- `@app.errorhandler(400)`: body and HTTP status of the response. -/
def bad_request_error : ErrorBody × Nat :=
  ({ success := false, error := 400, message := "bad request" }, 400)

/-- `@app.errorhandler(404)`. -/
def not_found : ErrorBody × Nat :=
  ({ success := false, error := 404, message := "resource not found" }, 404)

/-- `@app.errorhandler(405)`. -/
def method_not_allowed : ErrorBody × Nat :=
  ({ success := false, error := 405, message := "method not allowed" }, 405)

/-- `@app.errorhandler(422)`. -/
def unprocessable : ErrorBody × Nat :=
  ({ success := false, error := 422, message := "unprocessable" }, 422)

/-- `@app.errorhandler(500)`: the source returns the body
`{"error": 500, ...}` with HTTP status 422 (line 292: `}), 422`). -/
def internal_server_error : ErrorBody × Nat :=
  ({ success := false, error := 500, message := "internal server error" }, 422)

/-- A sample question row used in concrete instances. -/
def sampleQ : Question :=
  { id := 1, question := some "What is the largest lake in Africa?",
    answer := some "Lake Victoria", difficulty := some 2, category := some 3 }

/-- A one-question store. -/
def oneQStore : Store := { questions := [sampleQ], categories := [] }

/-- A store with one question and one category (the question's category). -/
def geoStore : Store :=
  { questions := [sampleQ], categories := [{ id := 3, type := "Geography" }] }

/-- An empty store. -/
def emptyStore : Store := { questions := [], categories := [] }

/-- The i-th of eleven identical-text sample questions. -/
def mkCexQ (i : Nat) : Question :=
  { id := i + 1, question := some "a question", answer := some "x",
    difficulty := some 1, category := some 1 }

/-- A store holding eleven questions whose text all contains "question". -/
def elevenStore : Store :=
  { questions := (List.range 11).map mkCexQ, categories := [] }

/-- A search request body with searchTerm "question". -/
def searchQBody : CreateBody :=
  { question := none, answer := none, difficulty := none, category := none,
    searchTerm := some "question" }

/-- A search request body with searchTerm "lake". -/
def searchLakeBody : CreateBody :=
  { question := none, answer := none, difficulty := none, category := none,
    searchTerm := some "lake" }

/-- A create request body whose question and answer texts are both empty. -/
def emptyTextBody : CreateBody :=
  { question := some "", answer := some "", difficulty := some 1,
    category := some 1, searchTerm := none }

/-- The row the store holds after inserting `emptyTextBody` into `emptyStore`. -/
def emptyTextRow : Question :=
  { id := 1, question := some "", answer := some "", difficulty := some 1,
    category := some 1 }

/-- Membership in a Python slice implies membership in the sliced list. -/
theorem mem_of_mem_pySlice {α : Type} {q : α} {l : List α} {a b : Int}
    (h : q ∈ pySlice l a b) : q ∈ l := by
  unfold pySlice at h
  exact List.mem_of_mem_take (List.mem_of_mem_drop h)

/-- Membership in a paginated page implies membership in the full list. -/
theorem mem_of_mem_paginate {q : Question} {page : Option Int} {l : List Question}
    (h : q ∈ paginate_questions page l) : q ∈ l := by
  unfold paginate_questions at h
  exact mem_of_mem_pySlice h

/-- Slicing from a non-negative start at or past the end of the list yields
the empty list. -/
theorem pySlice_eq_nil_of_length_le {α : Type} (l : List α) (a b : Int)
    (ha : 0 ≤ a) (hl : (l.length : Int) ≤ a) : pySlice l a b = [] := by
  have hnot : ¬ a < 0 := not_lt.mpr ha
  have hlen : l.length ≤ a.toNat := by
    have h2 := Int.toNat_le_toNat hl
    simpa using h2
  have hidx : pyIndex l.length a = a.toNat := by
    simp [pyIndex, hnot]
  unfold pySlice
  rw [hidx]
  refine List.drop_eq_nil_of_le ?_
  calc (l.take (pyIndex l.length b)).length ≤ l.length := by
        rw [List.length_take]
        exact min_le_right _ _
    _ ≤ a.toNat := hlen

/-- Claim C1 (counterexample): with eleven stored questions matching the
search term "question", the search response's total_questions field is 10
(the page length) while the full filtered result set has length 11, so
total_questions does not equal the size of the full filtered result set. -/
theorem C1_counterexample :
    searchTotal (create_a_question none searchQBody elevenStore).fst = some 10 ∧
    (elevenStore.questions.filter
      (fun q => ilikeContains "question" q.question)).length = 11 ∧
    (10 : Nat) ≠ 11 :=
  ⟨by rfl, by rfl, by decide⟩

/-- Claim C1 (amended): for every POST to /questions taking the search
branch, the total_questions field of the successful response equals the
number of questions on the returned page (the length of the page slice),
not the length of the full filtered result set. -/
theorem C1_amended (page : Option Int) (body : CreateBody) (s : Store)
    (qs : List Question) (t : Nat)
    (h : (create_a_question page body s).fst
      = Except.ok (CreateResp.searchOk qs t)) :
    t = qs.length := by
  by_cases hst : truthyStr body.searchTerm = true
  · simp only [create_a_question, hst, if_true] at h
    simp only [Except.ok.injEq, CreateResp.searchOk.injEq] at h
    obtain ⟨h1, h2⟩ := h
    subst h1
    omega
  · simp [create_a_question, hst] at h

/-- Claim C1 (witness): concrete search instance discharging the amended
theorem's hypothesis. -/
theorem C1_amended_witness :
    searchTotal (create_a_question none searchLakeBody oneQStore).fst = some 1 ∧
    (1 : Nat) = [sampleQ].length :=
  ⟨by rfl, C1_amended none searchLakeBody oneQStore [sampleQ] 1 (by rfl)⟩

/-- Claim C2 (code bug): submitting a creation body whose question and
answer texts are both empty strings is not rejected with 400: the handler
performs the insert and returns a success response, and the store gains
the new row. -/
theorem C2_code_bug :
    (create_a_question none emptyTextBody emptyStore).fst =
      Except.ok (CreateResp.createOk (some "") 1 [emptyTextRow] 1) ∧
    (create_a_question none emptyTextBody emptyStore).snd.questions
      = [emptyTextRow] :=
  ⟨rfl, rfl⟩

/-- Claim C3 (counterexample): a store with one question, requested page 2
(a valid page number beyond the last page): the handler returns 404, not a
200 success with an empty questions list. -/
theorem C3_counterexample :
    get_questions (some 2) oneQStore = Except.error 404 ∧
    oneQStore.questions.length = 1 :=
  ⟨rfl, rfl⟩

/-- Claim C3 (amended): GET /questions returns 404 both when the store
holds zero questions and when the store is non-empty but the requested
page lies at or beyond the end of the question list (the handler aborts
with 404 whenever the sliced page is empty). -/
theorem C3_amended (page : Option Int) (s : Store)
    (h : s.questions = [] ∨ ∃ n : Int, page = some n ∧ 1 ≤ n ∧
      (s.questions.length : Int) ≤ (n - 1) * QUESTIONS_PER_PAGE) :
    get_questions page s = Except.error 404 := by
  have hpag : paginate_questions page s.questions = [] := by
    rcases h with he | ⟨n, hp, h1, hlen⟩
    · rw [he]
      simp [paginate_questions, pySlice]
    · subst hp
      have ha : (0 : Int) ≤ (n - 1) * QUESTIONS_PER_PAGE := by
        have h0 : (0 : Int) ≤ n - 1 := by linarith
        have h10 : (0 : Int) ≤ QUESTIONS_PER_PAGE := by norm_num [QUESTIONS_PER_PAGE]
        exact mul_nonneg h0 h10
      simpa [paginate_questions] using
        pySlice_eq_nil_of_length_le s.questions ((n - 1) * QUESTIONS_PER_PAGE) _ ha hlen
  simp [get_questions, hpag]

/-- Claim C3 (witness): concrete instance of the amended theorem at a
one-question store and page 2. -/
theorem C3_amended_witness :
    get_questions (some 2) oneQStore = Except.error 404 :=
  C3_amended (some 2) oneQStore (Or.inr ⟨2, rfl, by decide, by decide⟩)

/-- Claim C4 (code bug): against a non-empty store, POST /play with
`previous_questions` absent, with `quiz_category` absent, or with both
absent, returns the 422 error instead of succeeding with the documented
defaults; the same request with both fields supplied succeeds. -/
theorem C4_code_bug :
    play_game 0 { previous_questions := none, quiz_category := none } geoStore
      = Except.error 422 ∧
    play_game 0 { previous_questions := some [], quiz_category := none } geoStore
      = Except.error 422 ∧
    play_game 0 { previous_questions := none, quiz_category := some 0 } geoStore
      = Except.error 422 ∧
    play_game 0 { previous_questions := some [], quiz_category := some 0 } geoStore
      = Except.ok { question := some sampleQ } :=
  ⟨rfl, rfl, rfl, by rfl⟩

/-- Claim C5: every question returned by POST /play has an id outside the
supplied previous_questions list, and lies in the supplied category when
that category id is not 0. -/
theorem C5_play_exclusion_and_category (pick : Nat) (s : Store)
    (prev : List Nat) (cid : Nat) (resp : PlayResp) (q : Question)
    (hok : play_game pick
      { previous_questions := some prev, quiz_category := some cid } s
      = Except.ok resp)
    (hq : resp.question = some q) :
    q.id ∉ prev ∧ (cid ≠ 0 → q.category = some cid) := by
  have hmem : q ∈ available_questions cid prev s := by
    simp only [play_game, Except.ok.injEq] at hok
    rw [← hok] at hq
    by_cases hlen : 0 < (available_questions cid prev s).length
    · rw [dif_pos hlen] at hq
      have hq2 : (available_questions cid prev s).get
          ⟨pick % (available_questions cid prev s).length, Nat.mod_lt _ hlen⟩ = q := by
        injection hq
      rw [← hq2]
      exact List.get_mem _ _ _
    · rw [dif_neg hlen] at hq
      simp at hq
  unfold available_questions at hmem
  by_cases hc : cid ≠ 0
  · rw [if_pos hc] at hmem
    have hp := (List.mem_filter.mp hmem).2
    simp only [Bool.and_eq_true, beq_iff_eq, Bool.not_eq_true'] at hp
    obtain ⟨hcat, hnotin⟩ := hp
    refine ⟨?_, fun _ => hcat⟩
    simpa using hnotin
  · rw [if_neg hc] at hmem
    have hp := (List.mem_filter.mp hmem).2
    simp only [Bool.not_eq_true'] at hp
    refine ⟨by simpa using hp, fun hcc => absurd hcc hc⟩

/-- Claim C5 (witness): concrete play request returning the sample
question, discharging the theorem's hypotheses. -/
theorem C5_witness :
    sampleQ.id ∉ ([] : List Nat) ∧ sampleQ.category = some 3 :=
  ⟨(C5_play_exclusion_and_category 0 oneQStore [] 3
      { question := some sampleQ } sampleQ (by rfl) rfl).1,
   (C5_play_exclusion_and_category 0 oneQStore [] 3
      { question := some sampleQ } sampleQ (by rfl) rfl).2 (by decide)⟩

/-- Claim C6 (counterexample): with one stored question, page parameter 0
does not return the same page as page 1 (Python negative slicing makes the
page-0 slice empty). -/
theorem C6_counterexample :
    paginate_questions (some 0) [sampleQ] ≠ paginate_questions (some 1) [sampleQ] := by
  decide

/-- Claim C6 (amended): a non-numeric or absent page parameter behaves as
page 1 (the Flask default); an integer page ≤ 0 instead follows Python
negative-slice semantics — in particular page 0 returns the empty list for
every question list. -/
theorem C6_amended (ql : List Question) :
    paginate_questions none ql = paginate_questions (some 1) ql ∧
    paginate_questions (some 0) ql = [] := by
  constructor
  · rfl
  · simp [paginate_questions, pySlice, pyIndex, QUESTIONS_PER_PAGE]

/-- Claim C6 (witness): the amended theorem at a one-question list. -/
theorem C6_amended_witness :
    paginate_questions none [sampleQ] = paginate_questions (some 1) [sampleQ] ∧
    paginate_questions (some 0) [sampleQ] = [] :=
  C6_amended [sampleQ]

/-- Claim C7 (code bug): the 400/404/405/422 handlers return an HTTP
status equal to the error field of their JSON body, but the handler
registered for 500 (internal failure) returns HTTP status 422 while its
body says error 500, so its body's error field differs from its status. -/
theorem C7_code_bug :
    bad_request_error.fst.error = bad_request_error.snd ∧
    not_found.fst.error = not_found.snd ∧
    method_not_allowed.fst.error = method_not_allowed.snd ∧
    unprocessable.fst.error = unprocessable.snd ∧
    internal_server_error.fst.error = 500 ∧
    internal_server_error.snd = 422 ∧
    internal_server_error.fst.error ≠ internal_server_error.snd :=
  ⟨rfl, rfl, rfl, rfl, rfl, rfl, by decide⟩

/-- Claim C8: when the candidate pool of a well-formed POST /play request
is empty, the handler returns the 200 success response whose question
field is the null sentinel, not an error. -/
theorem C8_empty_pool_null_sentinel (pick : Nat) (prev : List Nat)
    (cid : Nat) (s : Store)
    (hempty : available_questions cid prev s = []) :
    play_game pick { previous_questions := some prev, quiz_category := some cid } s
      = Except.ok { question := none } := by
  simp [play_game, hempty]

/-- Claim C8 (witness): a play request whose category matches no stored
question, so the pool is empty. -/
theorem C8_witness :
    play_game 0 { previous_questions := some [], quiz_category := some 2 } oneQStore
      = Except.ok { question := none } :=
  C8_empty_pool_null_sentinel 0 [] 2 oneQStore (by rfl)

/-- Claim C9: GET /categories/{id}/questions returns 404 when no category
has the requested id, and every question in a successful response's list
belongs to the requested category. -/
theorem C9_category_scoped (page : Option Int) (cid : Nat) (s : Store) :
    (s.categories.find? (fun c => c.id == cid) = none →
      get_questions_by_category page cid s = Except.error 404) ∧
    (∀ (resp : CategoryQuestionsResp) (q : Question),
      get_questions_by_category page cid s = Except.ok resp →
      q ∈ resp.questions → q.category = some cid) := by
  constructor
  · intro hnone
    simp [get_questions_by_category, hnone]
  · intro resp q hok hq
    cases hfind : s.categories.find? (fun c => c.id == cid) with
    | none => simp [get_questions_by_category, hfind] at hok
    | some cat =>
      have hcat : cat.id = cid := by
        have hfp := List.find?_some hfind
        simpa using hfp
      simp only [get_questions_by_category, hfind, Except.ok.injEq] at hok
      rw [← hok] at hq
      have hmem := mem_of_mem_paginate hq
      have hp := (List.mem_filter.mp hmem).2
      rw [hcat] at hp
      simpa using hp

/-- Claim C9 (witness): 404 for a missing category id, and the sample
question returned for its own category carries that category id. -/
theorem C9_witness :
    get_questions_by_category none 5 geoStore = Except.error 404 ∧
    sampleQ.category = some 3 :=
  ⟨(C9_category_scoped none 5 geoStore).1 rfl,
   (C9_category_scoped none 3 geoStore).2
     { total_questions := 1, current_category := "Geography",
       questions := [sampleQ] } sampleQ (by rfl) (by simp)⟩

/-- Claim C10: the total_questions field of a successful
GET /categories/{id}/questions response counts every question in the
store, not only the questions of the requested category. -/
theorem C10_total_is_store_count (page : Option Int) (cid : Nat) (s : Store)
    (resp : CategoryQuestionsResp)
    (hok : get_questions_by_category page cid s = Except.ok resp) :
    resp.total_questions = s.questions.length := by
  cases hfind : s.categories.find? (fun c => c.id == cid) with
  | none => simp [get_questions_by_category, hfind] at hok
  | some cat =>
    simp only [get_questions_by_category, hfind, Except.ok.injEq] at hok
    rw [← hok]

/-- Claim C10 (witness): concrete category listing over a two-category
store, discharging the hypothesis. -/
theorem C10_witness :
    ({ total_questions := 1, current_category := "Geography",
       questions := [sampleQ] } : CategoryQuestionsResp).total_questions
      = geoStore.questions.length :=
  C10_total_is_store_count none 3 geoStore _ (by rfl)

end TriviaAPI
